import Mathlib

/-!
Shallow embedding of the server-side post actions (`src/unnamed/part_000`,
a "use server" actions module): `createPost`, `getPosts`, `toggleLike`,
`createComment`, `deletePost`.

Modelling conventions:
* The relational store (Prisma tables `post`, `comment`, `like`,
  `notification`, plus the referenced `user` table) is an explicit `Store`
  value; every action takes the store and returns the updated store.
* The identity resolver `getDbUserId` is an external collaborator returning
  a nullable identifier; it is passed in as `uid : Option UserId`.
* Each persistence call may fail; a fault oracle `oracle : Nat → Bool`
  decides, per call index inside one invocation, whether that database call
  succeeds (`true`) or throws (`false`).  `prisma.$transaction` groups its
  statements atomically: if any statement inside faults, no write of the
  transaction persists.
* The `try` body of each action is a function returning
  `Except Err (Store × result)`; the surrounding `catch` is a wrapper that
  converts any thrown `Err` into the envelope the source builds in its
  `catch` block.  `getPosts` instead re-raises a generic error, modelled by
  the `Outcome.thrown` constructor.
* `revalidatePath` is a no-op external call and is not modelled.
-/

abbrev UserId := String
abbrev PostId := String

/-- Notification kind tag, `type` field of the `notification` table. -/
inductive NotifType where
  | LIKE
  | COMMENT
deriving DecidableEq, Repr

/-- A row of the `post` table (fields used by the actions module). -/
structure Post where
  id : PostId
  content : String
  image : String
  authorId : UserId
  createdAt : Nat
deriving DecidableEq, Repr

/-- A row of the `comment` table. -/
structure CommentRow where
  id : Nat
  content : String
  authorId : UserId
  postId : PostId
  createdAt : Nat
deriving DecidableEq, Repr

/-- A row of the `like` table, composite-keyed by (userId, postId). -/
structure LikeRow where
  userId : UserId
  postId : PostId
deriving DecidableEq, Repr

/-- A row of the `notification` table. `userId` is the recipient,
`creatorId` the acting user, `commentId` is set only for COMMENT kind. -/
structure NotificationRow where
  id : Nat
  type : NotifType
  userId : UserId
  creatorId : UserId
  postId : PostId
  commentId : Option Nat
deriving DecidableEq, Repr

/-- A row of the `user` table (the fields selected by `getPosts`). -/
structure User where
  id : UserId
  name : String
  image : String
  username : String
deriving DecidableEq, Repr

/-- The relational store.  `nextCommentId`, `nextNotificationId` and
`nextPostId` model the database generating fresh identifiers; `clock`
models the monotone `createdAt` timestamps it assigns. -/
structure Store where
  users : List User
  posts : List Post
  comments : List CommentRow
  likes : List LikeRow
  notifications : List NotificationRow
  nextCommentId : Nat
  nextNotificationId : Nat
  nextPostId : Nat
  clock : Nat
deriving DecidableEq, Repr

/-- Errors thrown inside the `try` blocks of the actions. `dbFault` stands
for a persistence-layer failure of an individual database call. -/
inductive Err where
  | postNotFound
  | contentRequired
  | unauthorized
  | dbFault
deriving DecidableEq, Repr

/-- The `message` of the thrown error (used by `createPost`'s catch). -/
def Err.message : Err → String
  | .postNotFound => "Post not found"
  | .contentRequired => "Content is required"
  | .unauthorized => "Unauthorized - no delete permission"
  | .dbFault => "Database error"

/-- The result envelope of a mutation: `{success:true, ...}` or
`{success:false, error}`. -/
inductive MutRes (α : Type) where
  | ok (val : α)
  | fail (error : String)
deriving DecidableEq, Repr

/-- What an invocation does at the caller boundary: return a value or
raise.  The mutations catch everything; only `getPosts` re-raises. -/
inductive Outcome (ρ : Type) where
  | returned (v : ρ)
  | thrown (msg : String)
deriving DecidableEq, Repr

/-- `prisma.post.findUnique({where:{id:postId}})`. -/
def lookupPost : List Post → PostId → Option Post
  | [], _ => none
  | p :: ps, pid => if p.id = pid then some p else lookupPost ps pid

/-- `prisma.like.findUnique({where:{userId_postId:{userId,postId}}})`. -/
def findLike : List LikeRow → UserId → PostId → Option LikeRow
  | [], _, _ => none
  | l :: ls, u, pid =>
      if l.userId = u ∧ l.postId = pid then some l else findLike ls u pid

/-- `prisma.like.delete({where:{userId_postId:{userId,postId}}})`
(removal of the row with the given composite key). -/
def removeLike (ls : List LikeRow) (u : UserId) (pid : PostId) : List LikeRow :=
  ls.filter fun l => ¬(l.userId = u ∧ l.postId = pid)

/-- `prisma.post.delete({where:{id:postId}})`. -/
def removePost (ps : List Post) (pid : PostId) : List Post :=
  ps.filter fun p => ¬(p.id = pid)

/-- Number of `like` rows with the given composite key. -/
def countLike (ls : List LikeRow) (u : UserId) (pid : PostId) : Nat :=
  (ls.filter fun l => l.userId = u ∧ l.postId = pid).length

/-! ## createPost -/

/-- The `try` body of `createPost`: resolve identity (undefined return when
none), then `prisma.post.create` (oracle call 0), then return the success
envelope with the post summary. -/
def createPostBody (uid : Option UserId) (content image : String)
    (oracle : Nat → Bool) (st : Store) : Except Err (Store × Option Post) :=
  match uid with
  | none => .ok (st, none)
  | some userId =>
    if oracle 0 = false then .error .dbFault
    else
      let post : Post :=
        { id := toString st.nextPostId, content := content, image := image,
          authorId := userId, createdAt := st.clock }
      .ok ({ st with posts := st.posts ++ [post],
                     nextPostId := st.nextPostId + 1,
                     clock := st.clock + 1 }, some post)

/-- `createPost(content, image)`: the body wrapped in the catch that turns
a thrown error into `{success:false, error: error.message}`. -/
def createPost (uid : Option UserId) (content image : String)
    (oracle : Nat → Bool) (st : Store) :
    Store × Outcome (Option (MutRes Post)) :=
  match createPostBody uid content image oracle st with
  | .ok (st', none) => (st', .returned none)
  | .ok (st', some p) => (st', .returned (some (.ok p)))
  | .error e => (st, .returned (some (.fail e.message)))

/-! ## toggleLike -/

/-- The `try` body of `toggleLike`: resolve identity (undefined return when
none); `like.findUnique` (oracle call 0); `post.findUnique` (oracle call 1),
throwing "Post not found" when absent; then either `like.delete`
(oracle call 2) on an existing like, or a `$transaction` of `like.create`
(oracle call 2) plus, when the actor is not the post's author,
`notification.create` (oracle call 3) — a fault of either statement rolls
the whole transaction back. -/
def toggleLikeBody (uid : Option UserId) (postId : PostId)
    (oracle : Nat → Bool) (st : Store) : Except Err (Store × Option Unit) :=
  match uid with
  | none => .ok (st, none)
  | some userId =>
    if oracle 0 = false then .error .dbFault
    else
      let existingLike := findLike st.likes userId postId
      if oracle 1 = false then .error .dbFault
      else match lookupPost st.posts postId with
        | none => .error .postNotFound
        | some post =>
          match existingLike with
          | some _ =>
            if oracle 2 = false then .error .dbFault
            else .ok ({ st with likes := removeLike st.likes userId postId },
                      some ())
          | none =>
            if oracle 2 = false then .error .dbFault
            else if post.authorId ≠ userId ∧ oracle 3 = false then
              .error .dbFault
            else
              .ok ({ st with
                      likes := st.likes ++ [⟨userId, postId⟩],
                      notifications :=
                        if post.authorId ≠ userId then
                          st.notifications ++
                            [⟨st.nextNotificationId, .LIKE, post.authorId,
                              userId, postId, none⟩]
                        else st.notifications,
                      nextNotificationId :=
                        if post.authorId ≠ userId then
                          st.nextNotificationId + 1
                        else st.nextNotificationId }, some ())

/-- `toggleLike(postId)`: the body wrapped in the catch that returns
`{success:false, error:"Failed to toggle like"}` on any thrown error. -/
def toggleLike (uid : Option UserId) (postId : PostId)
    (oracle : Nat → Bool) (st : Store) :
    Store × Outcome (Option (MutRes Unit)) :=
  match toggleLikeBody uid postId oracle st with
  | .ok (st', none) => (st', .returned none)
  | .ok (st', some _) => (st', .returned (some (.ok ())))
  | .error _ => (st, .returned (some (.fail "Failed to toggle like")))

/-! ## createComment -/

/-- The `try` body of `createComment`: resolve identity (undefined return
when none); throw "Content is required" when the content is falsy, i.e.
exactly the empty string; `post.findUnique` (oracle call 0), throwing
"Post not found" when absent; then a `$transaction` of `comment.create`
(oracle call 1) plus, when the actor is not the post's author,
`notification.create` referencing the new comment's id (oracle call 2) —
a fault of either statement rolls the whole transaction back. -/
def createCommentBody (uid : Option UserId) (postId : PostId)
    (content : String) (oracle : Nat → Bool) (st : Store) :
    Except Err (Store × Option CommentRow) :=
  match uid with
  | none => .ok (st, none)
  | some userId =>
    if content = "" then .error .contentRequired
    else if oracle 0 = false then .error .dbFault
    else match lookupPost st.posts postId with
      | none => .error .postNotFound
      | some post =>
        if oracle 1 = false then .error .dbFault
        else if post.authorId ≠ userId ∧ oracle 2 = false then
          .error .dbFault
        else
          let newComment : CommentRow :=
            { id := st.nextCommentId, content := content,
              authorId := userId, postId := postId, createdAt := st.clock }
          .ok ({ st with
                  comments := st.comments ++ [newComment],
                  nextCommentId := st.nextCommentId + 1,
                  clock := st.clock + 1,
                  notifications :=
                    if post.authorId ≠ userId then
                      st.notifications ++
                        [⟨st.nextNotificationId, .COMMENT, post.authorId,
                          userId, postId, some st.nextCommentId⟩]
                    else st.notifications,
                  nextNotificationId :=
                    if post.authorId ≠ userId then st.nextNotificationId + 1
                    else st.nextNotificationId }, some newComment)

/-- `createComment(postId, content)`: the body wrapped in the catch that
returns `{success:false, error:"Failed to create comment"}` on any thrown
error. -/
def createComment (uid : Option UserId) (postId : PostId) (content : String)
    (oracle : Nat → Bool) (st : Store) :
    Store × Outcome (Option (MutRes CommentRow)) :=
  match createCommentBody uid postId content oracle st with
  | .ok (st', none) => (st', .returned none)
  | .ok (st', some c) => (st', .returned (some (.ok c)))
  | .error _ => (st, .returned (some (.fail "Failed to create comment")))

/-! ## deletePost -/

/-- The `try` body of `deletePost`: resolve identity (note: no null check,
unlike the other mutators); `post.findUnique` (oracle call 0), throwing
"Post not found" when absent; throw "Unauthorized - no delete permission"
when the resolved identity differs from the post's author (a null identity
never equals the author); then `post.delete` (oracle call 1). -/
def deletePostBody (uid : Option UserId) (postId : PostId)
    (oracle : Nat → Bool) (st : Store) : Except Err (Store × Unit) :=
  if oracle 0 = false then .error .dbFault
  else match lookupPost st.posts postId with
    | none => .error .postNotFound
    | some post =>
      if some post.authorId ≠ uid then .error .unauthorized
      else if oracle 1 = false then .error .dbFault
      else .ok ({ st with posts := removePost st.posts postId }, ())

/-- `deletePost(postId)`: the body wrapped in the catch that returns
`{success:false, error:"Failed to delete post"}` on any thrown error. -/
def deletePost (uid : Option UserId) (postId : PostId)
    (oracle : Nat → Bool) (st : Store) : Store × Outcome (MutRes Unit) :=
  match deletePostBody uid postId oracle st with
  | .ok (st', _) => (st', .returned (.ok ()))
  | .error _ => (st, .returned (.fail "Failed to delete post"))

/-! ## getPosts -/

/-- The author summary selected by `getPosts` (`select` on `author`). -/
structure AuthorSummary where
  id : UserId
  name : String
  image : String
  username : String
deriving DecidableEq, Repr

def User.toSummary (u : User) : AuthorSummary :=
  ⟨u.id, u.name, u.image, u.username⟩

/-- `user` lookup by id (the `author` relation join). -/
def lookupUser : List User → UserId → Option User
  | [], _ => none
  | u :: us, i => if u.id = i then some u else lookupUser us i

/-- A comment as included by `getPosts`: the row plus its author summary. -/
structure EnrichedComment where
  comment : CommentRow
  author : Option AuthorSummary
deriving DecidableEq, Repr

/-- A post as returned by `getPosts`: the row, its author summary, its
comments (ordered by `createdAt` ascending, each with author summary), its
like records (user identifiers) and the like count (`_count.likes`). -/
structure EnrichedPost where
  post : Post
  author : Option AuthorSummary
  comments : List EnrichedComment
  likeUserIds : List UserId
  likeCount : Nat
deriving DecidableEq, Repr

/-- Order for `orderBy: {createdAt: "desc"}` on posts. -/
def postDesc (p q : Post) : Prop := q.createdAt ≤ p.createdAt

instance : DecidableRel postDesc := fun p q => Nat.decLe q.createdAt p.createdAt
instance : IsTotal Post postDesc := ⟨fun p q => (Nat.le_total q.createdAt p.createdAt)⟩
instance : IsTrans Post postDesc := ⟨fun _ _ _ h h' => Nat.le_trans h' h⟩

/-- Order for `orderBy: {createdAt: "asc"}` on comments. -/
def commentAsc (c d : CommentRow) : Prop := c.createdAt ≤ d.createdAt

instance : DecidableRel commentAsc := fun c d => Nat.decLe c.createdAt d.createdAt
instance : IsTotal CommentRow commentAsc := ⟨fun c d => Nat.le_total c.createdAt d.createdAt⟩
instance : IsTrans CommentRow commentAsc := ⟨fun _ _ _ h h' => Nat.le_trans h h'⟩

/-- The enrichment `getPosts` performs on one post via its `include`
clause: author summary, comments of the post ordered by `createdAt`
ascending each with its author summary, like user ids, like count. -/
def enrichPost (st : Store) (p : Post) : EnrichedPost :=
  { post := p,
    author := (lookupUser st.users p.authorId).map User.toSummary,
    comments :=
      (List.insertionSort commentAsc
        (st.comments.filter fun c => c.postId = p.id)).map
        fun c => ⟨c, (lookupUser st.users c.authorId).map User.toSummary⟩,
    likeUserIds := (st.likes.filter fun l => l.postId = p.id).map (·.userId),
    likeCount := (st.likes.filter fun l => l.postId = p.id).length }

/-- `getPosts()`: one `post.findMany` query (oracle call 0) returning all
posts ordered by `createdAt` descending with the nested includes; on a
query fault the catch re-raises the generic "Failed in fetch posts". -/
def getPosts (oracle : Nat → Bool) (st : Store) :
    Outcome (List EnrichedPost) :=
  if oracle 0 = false then .thrown "Failed in fetch posts"
  else .returned ((List.insertionSort postDesc st.posts).map (enrichPost st))

/-! ## Concrete sample data (used by witnesses) -/

/-- An empty store. -/
def stEmpty : Store := ⟨[], [], [], [], [], 0, 0, 0, 0⟩

def alice : User := ⟨"alice", "Alice", "img-a", "alice01"⟩

def postA : Post := ⟨"p1", "hello", "", "alice", 0⟩

/-- A store holding one user and one post authored by that user. -/
def stOne : Store := ⟨[alice], [postA], [], [], [], 0, 0, 1, 1⟩

/-- The all-successful fault oracle (no persistence call fails). -/
def allOK : Nat → Bool := fun _ => true

/-- `n` sequential invocations of `toggleLike(pid)` by user `u` under a
non-faulting persistence layer: the store after the `n`-th call. -/
def iterToggle (u : UserId) (pid : PostId) (st : Store) : Nat → Store
  | 0 => st
  | n + 1 => (toggleLike (some u) pid allOK (iterToggle u pid st n)).1

/-! ## Helper lemmas -/

theorem lookupPost_mem {ps : List Post} {pid : PostId} {p : Post}
    (h : lookupPost ps pid = some p) : p ∈ ps := by
  induction ps with
  | nil => simp [lookupPost] at h
  | cons q qs ih =>
    rw [lookupPost] at h
    split at h
    · simp_all
    · exact List.mem_cons_of_mem _ (ih h)

/-! ## Claim theorems (first batch) -/

/-- Claim C8: when identity resolution yields no user identifier,
`createPost`, `toggleLike` and `createComment` each return the undefined
result (no envelope) and leave the store unchanged. -/
theorem c8_missing_identity_silent_noop :
    (∀ content image oracle st,
        createPost none content image oracle st = (st, .returned none)) ∧
    (∀ postId oracle st,
        toggleLike none postId oracle st = (st, .returned none)) ∧
    (∀ postId content oracle st,
        createComment none postId content oracle st = (st, .returned none)) :=
  ⟨fun _ _ _ _ => rfl, fun _ _ _ => rfl, fun _ _ _ _ => rfl⟩

/-- Claim C10: `deletePost` performs no null-check on the resolved
identity: with no identity and an existing target post it takes the
ownership-check failure path (`Err.unauthorized`), returns the
`{success:false, error}` envelope and leaves the store — hence the post —
in place. -/
theorem c10_deletePost_no_null_check (st : Store) (postId : PostId) (p : Post)
    (oracle : Nat → Bool) (hor : ∀ n, oracle n = true)
    (h : lookupPost st.posts postId = some p) :
    deletePost none postId oracle st =
      (st, .returned (.fail "Failed to delete post")) ∧
    deletePostBody none postId oracle st = .error .unauthorized ∧
    p ∈ (deletePost none postId oracle st).1.posts := by
  have hbody : deletePostBody none postId oracle st = .error .unauthorized := by
    simp [deletePostBody, hor 0, h]
  refine ⟨?_, hbody, ?_⟩
  · simp [deletePost, hbody]
  · simp [deletePost, hbody]
    exact lookupPost_mem h

/-- Witness for C10 at a concrete store. -/
theorem c10_witness :
    deletePost none "p1" allOK stOne =
      (stOne, .returned (.fail "Failed to delete post")) :=
  (c10_deletePost_no_null_check stOne "p1" postA allOK (fun _ => rfl)
    (by decide)).1

/-- Claim C5 counterexample: the validation is the falsiness check
`if (!content)`, which rejects only the empty string.  Whitespace-only
content `" "` (whose trim is empty) is truthy, so `createComment` succeeds
and creates a Comment row — contradicting the claim that whitespace-only
content always fails with no rows written. -/
theorem c5_counterexample :
    (createComment (some "bob") "p1" " " allOK stOne).2 =
      .returned (some (.ok ⟨0, " ", "bob", "p1", 1⟩)) ∧
    (createComment (some "bob") "p1" " " allOK stOne).1.comments =
      [⟨0, " ", "bob", "p1", 1⟩] ∧
    " ".data.all Char.isWhitespace = true := by
  refine ⟨by decide, by decide, by decide⟩

/-- Claim C5 (amended): only exactly-empty content is rejected: for every
state and resolved identity, `createComment` with content `""` throws the
"Content is required" validation error internally, returns the
`{success:false, error:"Failed to create comment"}` envelope, and leaves
the store unchanged (no Comment row, no Notification row). -/
theorem c5_empty_content_rejected (uid : UserId) (postId : PostId)
    (oracle : Nat → Bool) (st : Store) :
    createComment (some uid) postId "" oracle st =
      (st, .returned (some (.fail "Failed to create comment"))) ∧
    createCommentBody (some uid) postId "" oracle st =
      .error .contentRequired := by
  have hbody : createCommentBody (some uid) postId "" oracle st =
      .error .contentRequired := by
    simp [createCommentBody]
  exact ⟨by simp [createComment, hbody], hbody⟩

/-- Claim C7 counterexample: on a nonexistent post the catch blocks
replace the thrown "Post not found" with the generic messages
"Failed to toggle like" / "Failed to delete post", so the returned
envelope does not report that the post was not found. -/
theorem c7_counterexample :
    toggleLike (some "bob") "nope" allOK stOne =
      (stOne, .returned (some (.fail "Failed to toggle like"))) ∧
    deletePost (some "bob") "nope" allOK stOne =
      (stOne, .returned (.fail "Failed to delete post")) ∧
    "Failed to toggle like" ≠ "Post not found" ∧
    "Failed to delete post" ≠ "Post not found" := by
  refine ⟨by decide, by decide, by decide, by decide⟩

/-- Claim C7 (amended): for a postId referring to no existing post,
`toggleLike` (with a resolved identity) and `deletePost` throw the
not-found error internally, return the generic failure envelopes
`{success:false, error:"Failed to toggle like"}` resp.
`{success:false, error:"Failed to delete post"}` (the not-found cause is
not surfaced in the envelope), and leave the store unchanged. -/
theorem c7_not_found (st : Store) (u : UserId) (uid : Option UserId)
    (postId : PostId) (oracle : Nat → Bool) (hor : ∀ n, oracle n = true)
    (h : lookupPost st.posts postId = none) :
    toggleLike (some u) postId oracle st =
      (st, .returned (some (.fail "Failed to toggle like"))) ∧
    toggleLikeBody (some u) postId oracle st = .error .postNotFound ∧
    deletePost uid postId oracle st =
      (st, .returned (.fail "Failed to delete post")) ∧
    deletePostBody uid postId oracle st = .error .postNotFound := by
  have hbody : toggleLikeBody (some u) postId oracle st =
      .error .postNotFound := by
    simp [toggleLikeBody, hor 0, hor 1, h]
  have hbody' : deletePostBody uid postId oracle st =
      .error .postNotFound := by
    simp [deletePostBody, hor 0, h]
  exact ⟨by simp [toggleLike, hbody], hbody,
         by simp [deletePost, hbody'], hbody'⟩

/-- Witness for the amended C7 at a concrete store. -/
theorem c7_witness :
    toggleLike (some "bob") "p9" allOK stOne =
      (stOne, .returned (some (.fail "Failed to toggle like"))) :=
  (c7_not_found stOne "bob" (some "bob") "p9" allOK (fun _ => rfl)
    (by decide)).1

/-- Claim C9: every mutation catches all thrown errors and returns a
value (an envelope or the undefined result) — it never raises to the
caller — while `getPosts` converts an underlying query failure into the
raised generic "Failed in fetch posts" error instead of an envelope. -/
theorem c9_propagation_policy :
    (∀ uid content image oracle st, ∃ v,
        (createPost uid content image oracle st).2 = .returned v) ∧
    (∀ uid postId oracle st, ∃ v,
        (toggleLike uid postId oracle st).2 = .returned v) ∧
    (∀ uid postId content oracle st, ∃ v,
        (createComment uid postId content oracle st).2 = .returned v) ∧
    (∀ uid postId oracle st, ∃ v,
        (deletePost uid postId oracle st).2 = .returned v) ∧
    (∀ oracle st, oracle 0 = false →
        getPosts oracle st = .thrown "Failed in fetch posts") := by
  refine ⟨?_, ?_, ?_, ?_, ?_⟩
  · intro uid content image oracle st
    unfold createPost
    split <;> exact ⟨_, rfl⟩
  · intro uid postId oracle st
    unfold toggleLike
    split <;> exact ⟨_, rfl⟩
  · intro uid postId content oracle st
    unfold createComment
    split <;> exact ⟨_, rfl⟩
  · intro uid postId oracle st
    unfold deletePost
    split <;> exact ⟨_, rfl⟩
  · intro oracle st h
    simp [getPosts, h]

/-- Witness for C9 at a concrete faulting oracle. -/
theorem c9_witness :
    getPosts (fun _ => false) stEmpty = .thrown "Failed in fetch posts" :=
  c9_propagation_policy.2.2.2.2 (fun _ => false) stEmpty rfl

/-- Claim C3: for an existing post (under a non-faulting persistence
layer), `deletePost` returns the success envelope exactly when the
resolved identity equals the post's author; otherwise it throws the
unauthorized error internally, returns the `{success:false, error}`
envelope, and the post remains in the store. -/
theorem c3_deletePost_owner_only (st : Store) (uid : Option UserId)
    (p : Post) (oracle : Nat → Bool) (hor : ∀ n, oracle n = true)
    (h : lookupPost st.posts p.id = some p) :
    ((deletePost uid p.id oracle st).2 = .returned (.ok ()) ↔
      uid = some p.authorId) ∧
    (uid ≠ some p.authorId →
      deletePost uid p.id oracle st =
        (st, .returned (.fail "Failed to delete post")) ∧
      deletePostBody uid p.id oracle st = .error .unauthorized ∧
      p ∈ (deletePost uid p.id oracle st).1.posts) := by
  by_cases huid : uid = some p.authorId
  · subst huid
    have hbody : deletePostBody (some p.authorId) p.id oracle st =
        .ok ({ st with posts := removePost st.posts p.id }, ()) := by
      simp [deletePostBody, hor 0, hor 1, h]
    refine ⟨by simp [deletePost, hbody], fun hne => absurd rfl hne⟩
  · have hne : some p.authorId ≠ uid := fun he => huid he.symm
    have hbody : deletePostBody uid p.id oracle st = .error .unauthorized := by
      simp [deletePostBody, hor 0, h, hne]
    refine ⟨by simp [deletePost, hbody, huid], fun _ => ⟨?_, hbody, ?_⟩⟩
    · simp [deletePost, hbody]
    · simp [deletePost, hbody]
      exact lookupPost_mem h

/-- Witness for C3 at a concrete store: a non-author caller fails and the
post survives. -/
theorem c3_witness :
    deletePost (some "bob") postA.id allOK stOne =
      (stOne, .returned (.fail "Failed to delete post")) :=
  ((c3_deletePost_owner_only stOne (some "bob") postA allOK (fun _ => rfl)
    (by decide)).2 (by decide)).1

/-! ## Shape lemmas for the transactional branches -/

/-- Every outcome of `toggleLikeBody` with a resolved identity: a thrown
error (store untouched by the wrapper), the unlike branch (like row
removed, nothing else), or the like transaction (like row appended and,
exactly when the actor is not the author, the LIKE notification appended
with it). -/
theorem toggleLikeBody_shape (u : UserId) (postId : PostId)
    (oracle : Nat → Bool) (st : Store) :
    (∃ e, toggleLikeBody (some u) postId oracle st = .error e) ∨
    (∃ post, lookupPost st.posts postId = some post ∧
      (((findLike st.likes u postId).isSome ∧
        toggleLikeBody (some u) postId oracle st =
          .ok ({ st with likes := removeLike st.likes u postId }, some ())) ∨
       (findLike st.likes u postId = none ∧
        toggleLikeBody (some u) postId oracle st =
          .ok ({ st with
                  likes := st.likes ++ [⟨u, postId⟩],
                  notifications :=
                    if post.authorId ≠ u then
                      st.notifications ++
                        [⟨st.nextNotificationId, .LIKE, post.authorId, u,
                          postId, none⟩]
                    else st.notifications,
                  nextNotificationId :=
                    if post.authorId ≠ u then st.nextNotificationId + 1
                    else st.nextNotificationId }, some ())))) := by
  by_cases o0 : oracle 0 = false
  · exact .inl ⟨.dbFault, by simp [toggleLikeBody, o0]⟩
  · by_cases o1 : oracle 1 = false
    · exact .inl ⟨.dbFault, by simp [toggleLikeBody, o0, o1]⟩
    · cases hpost : lookupPost st.posts postId with
      | none => exact .inl ⟨.postNotFound, by simp [toggleLikeBody, o0, o1, hpost]⟩
      | some post =>
        cases hlike : findLike st.likes u postId with
        | some l =>
          by_cases o2 : oracle 2 = false
          · exact .inl ⟨.dbFault, by simp [toggleLikeBody, o0, o1, o2, hpost, hlike]⟩
          · exact .inr ⟨post, rfl, .inl ⟨by simp [hlike],
              by simp [toggleLikeBody, o0, o1, o2, hpost, hlike]⟩⟩
        | none =>
          by_cases o2 : oracle 2 = false
          · exact .inl ⟨.dbFault, by simp [toggleLikeBody, o0, o1, o2, hpost, hlike]⟩
          · by_cases hne : post.authorId ≠ u
            · by_cases o3 : oracle 3 = false
              · exact .inl ⟨.dbFault,
                  by simp [toggleLikeBody, o0, o1, o2, o3, hpost, hlike, hne]⟩
              · exact .inr ⟨post, rfl, .inr ⟨rfl,
                  by simp [toggleLikeBody, o0, o1, o2, o3, hpost, hlike, hne]⟩⟩
            · exact .inr ⟨post, rfl, .inr ⟨rfl,
                by simp [toggleLikeBody, o0, o1, o2, hpost, hlike, hne]⟩⟩

/-- Every outcome of `createCommentBody` with a resolved identity: a
thrown error, or the comment transaction (comment row appended and,
exactly when the actor is not the author, the COMMENT notification —
referencing the new comment's id — appended with it). -/
theorem createCommentBody_shape (u : UserId) (postId : PostId)
    (content : String) (oracle : Nat → Bool) (st : Store) :
    (∃ e, createCommentBody (some u) postId content oracle st = .error e) ∨
    (∃ post, lookupPost st.posts postId = some post ∧
      createCommentBody (some u) postId content oracle st =
        .ok ({ st with
                comments := st.comments ++
                  [⟨st.nextCommentId, content, u, postId, st.clock⟩],
                nextCommentId := st.nextCommentId + 1,
                clock := st.clock + 1,
                notifications :=
                  if post.authorId ≠ u then
                    st.notifications ++
                      [⟨st.nextNotificationId, .COMMENT, post.authorId, u,
                        postId, some st.nextCommentId⟩]
                  else st.notifications,
                nextNotificationId :=
                  if post.authorId ≠ u then st.nextNotificationId + 1
                  else st.nextNotificationId },
              some ⟨st.nextCommentId, content, u, postId, st.clock⟩)) := by
  by_cases hc : content = ""
  · exact .inl ⟨.contentRequired, by simp [createCommentBody, hc]⟩
  · by_cases o0 : oracle 0 = false
    · exact .inl ⟨.dbFault, by simp [createCommentBody, hc, o0]⟩
    · cases hpost : lookupPost st.posts postId with
      | none => exact .inl ⟨.postNotFound, by simp [createCommentBody, hc, o0, hpost]⟩
      | some post =>
        by_cases o1 : oracle 1 = false
        · exact .inl ⟨.dbFault, by simp [createCommentBody, hc, o0, o1, hpost]⟩
        · by_cases hne : post.authorId ≠ u
          · by_cases o2 : oracle 2 = false
            · exact .inl ⟨.dbFault,
                by simp [createCommentBody, hc, o0, o1, o2, hpost, hne]⟩
            · exact .inr ⟨post, rfl,
                by simp [createCommentBody, hc, o0, o1, o2, hpost, hne]⟩
          · exact .inr ⟨post, rfl,
              by simp [createCommentBody, hc, o0, o1, hpost, hne]⟩

/-- Claim C1: the conditional Notification write is grouped atomically
with the Like insert (resp. the Comment insert): in every reachable final
state — success or error, under any fault pattern — either both rows were
appended together or the store is unchanged; no state with one row but not
the other is reachable. -/
theorem c1_transaction_atomicity :
    (∀ u postId oracle st post,
      lookupPost st.posts postId = some post →
      findLike st.likes u postId = none →
      post.authorId ≠ u →
      (toggleLike (some u) postId oracle st).1 = st ∨
      (toggleLike (some u) postId oracle st).1 =
        { st with
            likes := st.likes ++ [⟨u, postId⟩],
            notifications := st.notifications ++
              [⟨st.nextNotificationId, .LIKE, post.authorId, u, postId, none⟩],
            nextNotificationId := st.nextNotificationId + 1 }) ∧
    (∀ u postId content oracle st post,
      lookupPost st.posts postId = some post →
      post.authorId ≠ u →
      (createComment (some u) postId content oracle st).1 = st ∨
      (createComment (some u) postId content oracle st).1 =
        { st with
            comments := st.comments ++
              [⟨st.nextCommentId, content, u, postId, st.clock⟩],
            nextCommentId := st.nextCommentId + 1,
            clock := st.clock + 1,
            notifications := st.notifications ++
              [⟨st.nextNotificationId, .COMMENT, post.authorId, u, postId,
                some st.nextCommentId⟩],
            nextNotificationId := st.nextNotificationId + 1 }) := by
  constructor
  · intro u postId oracle st post hpost hlike hne
    rcases toggleLikeBody_shape u postId oracle st with ⟨e, he⟩ | ⟨post', hpost', hbr⟩
    · exact .inl (by simp [toggleLike, he])
    · have hpp : post' = post := by
        rw [hpost] at hpost'; exact (Option.some.inj hpost').symm
      subst hpp
      rcases hbr with ⟨hsome, _⟩ | ⟨_, hok⟩
      · rw [hlike] at hsome; simp at hsome
      · exact .inr (by simp [toggleLike, hok, hne])
  · intro u postId content oracle st post hpost hne
    rcases createCommentBody_shape u postId content oracle st with
      ⟨e, he⟩ | ⟨post', hpost', hok⟩
    · exact .inl (by simp [createComment, he])
    · have hpp : post' = post := by
        rw [hpost] at hpost'; exact (Option.some.inj hpost').symm
      subst hpp
      exact .inr (by simp [createComment, hok, hne])

/-- Witness for C1 at a concrete store: a like by a non-author lands both
the Like row and the LIKE Notification together. -/
theorem c1_witness :
    (toggleLike (some "bob") "p1" allOK stOne).1 = stOne ∨
    (toggleLike (some "bob") "p1" allOK stOne).1 =
      { stOne with
          likes := stOne.likes ++ [⟨"bob", "p1"⟩],
          notifications := stOne.notifications ++
            [⟨stOne.nextNotificationId, .LIKE, postA.authorId, "bob", "p1",
              none⟩],
          nextNotificationId := stOne.nextNotificationId + 1 } :=
  c1_transaction_atomicity.1 "bob" "p1" allOK stOne postA (by decide)
    (by decide) (by decide)

/-- Claim C2: acting on your own post never creates a Notification; a
successful like-from-none on another user's post creates exactly one LIKE
Notification addressed to the post's author with the actor as creator; a
successful comment on another user's post creates exactly one COMMENT
Notification whose commentId is the new comment's identifier. -/
theorem c2_notification_rules :
    (∀ u postId oracle st post,
      lookupPost st.posts postId = some post → post.authorId = u →
      (toggleLike (some u) postId oracle st).1.notifications =
        st.notifications) ∧
    (∀ u postId content oracle st post,
      lookupPost st.posts postId = some post → post.authorId = u →
      (createComment (some u) postId content oracle st).1.notifications =
        st.notifications) ∧
    (∀ u postId oracle st post,
      lookupPost st.posts postId = some post → post.authorId ≠ u →
      findLike st.likes u postId = none →
      (toggleLike (some u) postId oracle st).2 =
        .returned (some (.ok ())) →
      (toggleLike (some u) postId oracle st).1.notifications =
        st.notifications ++
          [⟨st.nextNotificationId, .LIKE, post.authorId, u, postId, none⟩]) ∧
    (∀ u postId content oracle st post c,
      lookupPost st.posts postId = some post → post.authorId ≠ u →
      (createComment (some u) postId content oracle st).2 =
        .returned (some (.ok c)) →
      (createComment (some u) postId content oracle st).1.notifications =
        st.notifications ++
          [⟨st.nextNotificationId, .COMMENT, post.authorId, u, postId,
            some c.id⟩] ∧
      (createComment (some u) postId content oracle st).1.comments =
        st.comments ++ [c]) := by
  refine ⟨?_, ?_, ?_, ?_⟩
  · intro u postId oracle st post hpost heq
    rcases toggleLikeBody_shape u postId oracle st with ⟨e, he⟩ | ⟨post', hpost', hbr⟩
    · simp [toggleLike, he]
    · have hpp : post' = post := by
        rw [hpost] at hpost'; exact (Option.some.inj hpost').symm
      subst hpp
      rcases hbr with ⟨_, hok⟩ | ⟨_, hok⟩ <;> simp [toggleLike, hok, heq]
  · intro u postId content oracle st post hpost heq
    rcases createCommentBody_shape u postId content oracle st with
      ⟨e, he⟩ | ⟨post', hpost', hok⟩
    · simp [createComment, he]
    · have hpp : post' = post := by
        rw [hpost] at hpost'; exact (Option.some.inj hpost').symm
      subst hpp
      simp [createComment, hok, heq]
  · intro u postId oracle st post hpost hne hlike hsucc
    rcases toggleLikeBody_shape u postId oracle st with ⟨e, he⟩ | ⟨post', hpost', hbr⟩
    · simp [toggleLike, he] at hsucc
    · have hpp : post' = post := by
        rw [hpost] at hpost'; exact (Option.some.inj hpost').symm
      subst hpp
      rcases hbr with ⟨hsome, _⟩ | ⟨_, hok⟩
      · rw [hlike] at hsome; simp at hsome
      · simp [toggleLike, hok, hne]
  · intro u postId content oracle st post c hpost hne hsucc
    rcases createCommentBody_shape u postId content oracle st with
      ⟨e, he⟩ | ⟨post', hpost', hok⟩
    · simp [createComment, he] at hsucc
    · have hpp : post' = post := by
        rw [hpost] at hpost'; exact (Option.some.inj hpost').symm
      subst hpp
      have hc : c = ⟨st.nextCommentId, content, u, postId, st.clock⟩ := by
        simp [createComment, hok] at hsucc
        exact hsucc.symm
      subst hc
      refine ⟨by simp [createComment, hok, hne], by simp [createComment, hok]⟩

/-- Witness for C2 at a concrete store: the like by a non-author created
exactly the one LIKE notification addressed to the author. -/
theorem c2_witness :
    (toggleLike (some "bob") "p1" allOK stOne).1.notifications =
      stOne.notifications ++
        [⟨stOne.nextNotificationId, .LIKE, postA.authorId, "bob", "p1",
          none⟩] :=
  c2_notification_rules.2.2.1 "bob" "p1" allOK stOne postA (by decide)
    (by decide) (by decide) (by decide)

/-! ## Like-count bookkeeping lemmas -/

theorem countLike_cons (l : LikeRow) (ls : List LikeRow) (u : UserId)
    (pid : PostId) :
    countLike (l :: ls) u pid =
      countLike ls u pid + (if l.userId = u ∧ l.postId = pid then 1 else 0) := by
  by_cases h : l.userId = u ∧ l.postId = pid <;>
    simp [countLike, List.filter_cons, h]

theorem findLike_eq_none_iff (ls : List LikeRow) (u : UserId) (pid : PostId) :
    findLike ls u pid = none ↔ countLike ls u pid = 0 := by
  induction ls with
  | nil => simp [findLike, countLike]
  | cons l ls ih =>
    rw [findLike, countLike_cons]
    by_cases h : l.userId = u ∧ l.postId = pid
    · simp [h]
    · simpa [h] using ih

theorem countLike_removeLike (ls : List LikeRow) (u : UserId) (pid : PostId) :
    countLike (removeLike ls u pid) u pid = 0 := by
  induction ls with
  | nil => rfl
  | cons l ls ih =>
    rw [removeLike, List.filter_cons]
    by_cases h : l.userId = u ∧ l.postId = pid
    · simpa [h, removeLike] using ih
    · simpa [h, countLike_cons, removeLike] using ih

theorem countLike_append (ls ls' : List LikeRow) (u : UserId) (pid : PostId) :
    countLike (ls ++ ls') u pid = countLike ls u pid + countLike ls' u pid := by
  simp [countLike, List.filter_append]

theorem countLike_self_singleton (u : UserId) (pid : PostId) :
    countLike [⟨u, pid⟩] u pid = 1 := by
  simp [countLike, List.filter_cons]

/-- `toggleLike` never touches the `post` table. -/
theorem toggleLike_posts_eq (uid : Option UserId) (postId : PostId)
    (oracle : Nat → Bool) (st : Store) :
    (toggleLike uid postId oracle st).1.posts = st.posts := by
  cases uid with
  | none => rfl
  | some u =>
    rcases toggleLikeBody_shape u postId oracle st with ⟨e, he⟩ | ⟨post, hp, hbr⟩
    · simp [toggleLike, he]
    · rcases hbr with ⟨_, hok⟩ | ⟨_, hok⟩ <;> simp [toggleLike, hok]

/-- One non-faulting `toggleLike` on an existing post: it reports success
and flips the Like row existence (creating it from none, removing every
matching row otherwise). -/
theorem toggleLike_step (u : UserId) (st : Store) (post : Post)
    (hpost : lookupPost st.posts post.id = some post) :
    (toggleLike (some u) post.id allOK st).2 = .returned (some (.ok ())) ∧
    countLike (toggleLike (some u) post.id allOK st).1.likes u post.id =
      (if countLike st.likes u post.id = 0 then 1 else 0) := by
  by_cases h0 : countLike st.likes u post.id = 0
  · have hfl : findLike st.likes u post.id = none :=
      (findLike_eq_none_iff st.likes u post.id).mpr h0
    constructor
    · simp [toggleLike, toggleLikeBody, allOK, hpost, hfl]
    · simp [toggleLike, toggleLikeBody, allOK, hpost, hfl, h0,
        countLike_append, countLike_self_singleton]
  · cases hfl : findLike st.likes u post.id with
    | none => exact absurd ((findLike_eq_none_iff st.likes u post.id).mp hfl) h0
    | some l =>
      constructor
      · simp [toggleLike, toggleLikeBody, allOK, hpost, hfl]
      · simp [toggleLike, toggleLikeBody, allOK, hpost, hfl, h0,
          countLike_removeLike]

/-- Invariant of iterated toggling: the post table is untouched and the
number of Like(u,p) rows after `n` toggles from a clean state is `n % 2`. -/
theorem iterToggle_invariant (u : UserId) (p : Post) (st : Store)
    (hpost : lookupPost st.posts p.id = some p)
    (h0 : countLike st.likes u p.id = 0) :
    ∀ n, (iterToggle u p.id st n).posts = st.posts ∧
      countLike (iterToggle u p.id st n).likes u p.id = n % 2
  | 0 => ⟨rfl, by simpa [iterToggle] using h0⟩
  | n + 1 => by
    obtain ⟨hp, hc⟩ := iterToggle_invariant u p st hpost h0 n
    have hlook : lookupPost (iterToggle u p.id st n).posts p.id = some p := by
      rw [hp]; exact hpost
    have hstep := toggleLike_step u (iterToggle u p.id st n) p hlook
    refine ⟨?_, ?_⟩
    · show (toggleLike (some u) p.id allOK (iterToggle u p.id st n)).1.posts = st.posts
      rw [toggleLike_posts_eq, hp]
    · show countLike (toggleLike (some u) p.id allOK (iterToggle u p.id st n)).1.likes
          u p.id = (n + 1) % 2
      rw [hstep.2, hc]
      rcases Nat.mod_two_eq_zero_or_one n with h | h <;> simp [h] <;> omega

/-- Claim C4: starting with no Like(u,p) row on an existing post, after
`n` sequential invocations of `toggleLike` (each of which succeeds) a
Like(u,p) row exists exactly when `n` is odd, and at most one Like(u,p)
row ever exists at any point of the sequence. -/
theorem c4_toggle_parity (u : UserId) (p : Post) (st : Store)
    (hpost : lookupPost st.posts p.id = some p)
    (h0 : countLike st.likes u p.id = 0) (n : Nat) :
    countLike (iterToggle u p.id st n).likes u p.id = n % 2 ∧
    (0 < countLike (iterToggle u p.id st n).likes u p.id ↔ Odd n) ∧
    (∀ k, k ≤ n → countLike (iterToggle u p.id st k).likes u p.id ≤ 1) ∧
    (∀ k, k < n →
      (toggleLike (some u) p.id allOK (iterToggle u p.id st k)).2 =
        .returned (some (.ok ()))) := by
  have hinv := iterToggle_invariant u p st hpost h0
  refine ⟨(hinv n).2, ?_, ?_, ?_⟩
  · rw [(hinv n).2, Nat.odd_iff]; omega
  · intro k _
    rw [(hinv k).2]; omega
  · intro k _
    have hlook : lookupPost (iterToggle u p.id st k).posts p.id = some p := by
      rw [(hinv k).1]; exact hpost
    exact (toggleLike_step u (iterToggle u p.id st k) p hlook).1

/-- Witness for C4 at a concrete store: three toggles leave exactly one
Like row. -/
theorem c4_witness :
    countLike (iterToggle "bob" postA.id stOne 3).likes "bob" postA.id =
      3 % 2 :=
  (c4_toggle_parity "bob" postA stOne (by decide) (by decide) 3).1

/-- Claim C6: when the underlying query succeeds, `getPosts` returns all
posts of the store (as a permutation) ordered by `createdAt` descending;
within each returned post the comments are exactly the post's comments
ordered by `createdAt` ascending; each post carries its author summary,
its like records (user identifiers) and the count of its likes. -/
theorem c6_getPosts_ordered (st : Store) (oracle : Nat → Bool)
    (h : oracle 0 = true) :
    ∃ ps, getPosts oracle st = .returned ps ∧
      List.Perm (ps.map EnrichedPost.post) st.posts ∧
      List.Sorted (fun a b => b ≤ a) (ps.map fun e => e.post.createdAt) ∧
      ∀ e ∈ ps,
        List.Sorted (· ≤ ·) (e.comments.map fun c => c.comment.createdAt) ∧
        List.Perm (e.comments.map EnrichedComment.comment)
          (st.comments.filter fun c => c.postId = e.post.id) ∧
        e.author = (lookupUser st.users e.post.authorId).map User.toSummary ∧
        e.likeUserIds =
          (st.likes.filter fun l => l.postId = e.post.id).map LikeRow.userId ∧
        e.likeCount =
          (st.likes.filter fun l => l.postId = e.post.id).length := by
  refine ⟨(List.insertionSort postDesc st.posts).map (enrichPost st),
    by simp [getPosts, h], ?_, ?_, ?_⟩
  · rw [List.map_map]
    have hcomp : (EnrichedPost.post ∘ enrichPost st) = id := rfl
    rw [hcomp, List.map_id]
    exact List.perm_insertionSort postDesc st.posts
  · rw [List.map_map]
    exact List.Pairwise.map _ (fun a b hab => hab)
      (List.sorted_insertionSort postDesc st.posts)
  · intro e he
    rw [List.mem_map] at he
    obtain ⟨p, _, rfl⟩ := he
    refine ⟨?_, ?_, rfl, rfl, rfl⟩
    · show List.Sorted (· ≤ ·)
        (((List.insertionSort commentAsc
            (st.comments.filter fun c => c.postId = p.id)).map
          fun c => (⟨c, (lookupUser st.users c.authorId).map User.toSummary⟩ :
            EnrichedComment)).map fun c => c.comment.createdAt)
      rw [List.map_map]
      exact List.Pairwise.map _ (fun a b hab => hab)
        (List.sorted_insertionSort commentAsc _)
    · show List.Perm
        (((List.insertionSort commentAsc
            (st.comments.filter fun c => c.postId = p.id)).map
          fun c => (⟨c, (lookupUser st.users c.authorId).map User.toSummary⟩ :
            EnrichedComment)).map EnrichedComment.comment)
        (st.comments.filter fun c => c.postId = p.id)
      rw [List.map_map]
      have hcomp : (EnrichedComment.comment ∘
          fun c => (⟨c, (lookupUser st.users c.authorId).map User.toSummary⟩ :
            EnrichedComment)) = id := rfl
      rw [hcomp, List.map_id]
      exact List.perm_insertionSort commentAsc _

/-- Witness for C6 at a concrete store. -/
theorem c6_witness :
    ∃ ps, getPosts allOK stOne = .returned ps ∧
      List.Perm (ps.map EnrichedPost.post) stOne.posts := by
  obtain ⟨ps, h1, h2, _⟩ := c6_getPosts_ordered stOne allOK rfl
  exact ⟨ps, h1, h2⟩

/-- Witness for the amended C5 at a concrete store. -/
theorem c5_witness :
    createComment (some "bob") "p1" "" allOK stOne =
      (stOne, .returned (some (.fail "Failed to create comment"))) :=
  (c5_empty_content_rejected "bob" "p1" allOK stOne).1
